import Mathlib

/-!
Shallow embedding of the dex-trader-mcp server (TypeScript sources
`src/index.ts`, `src/jupiter.ts`, `src/solana.ts`) and proofs about its
five exposed operations.

Modelling conventions:
* JavaScript numbers are embedded as exact rationals (ℚ); raw on-chain
  amounts, which the source carries as decimal strings or integers, are
  embedded as ℤ.  `Math.round` is embedded as `jsMathRound` (floor of
  x + 1/2, the ECMAScript definition, applied to the exact value of its
  double argument).  Where a claim turns on double-precision behaviour —
  the buy-and-sell normalization round-trip — each JavaScript arithmetic
  step is composed with `fl`, the rounding of IEEE 754 binary64:
  round-to-nearest, ties-to-even, 53-bit significand (exponent range
  unbounded in the model; the magnitudes involved are far from overflow
  and subnormal territory).
* Network effects (the Jupiter HTTP API and the Solana RPC) are embedded
  as explicit environment records supplying each call's outcome; a
  thrown JavaScript `Error` is an `Except.error` carrying the message.
* Each MCP tool handler becomes a total function from its environment
  and arguments to a result type whose constructors mirror the handler's
  exits: a structured success envelope, a caught-and-rendered error text,
  or an uncaught exception escaping the handler (`thrown`).
-/

/-- From `src/solana.ts`: the native pseudo-mint id `SOL_MINT`. -/
def SOL_MINT : String := "So11111111111111111111111111111111111111112"

/-- From `src/solana.ts`: `SOL_DECIMALS = 9`. -/
def SOL_DECIMALS : Nat := 9

/-- The `@solana/web3.js` constant `LAMPORTS_PER_SOL = 1e9`, used as a number. -/
def LAMPORTS_PER_SOL : ℚ := 1000000000

/-- ECMAScript `Math.round x = ⌊x + 1/2⌋` (ties round toward +∞),
embedded over exact rationals. -/
def jsMathRound (q : ℚ) : ℤ := ⌊q + 1 / 2⌋

/-- Spec-side rounding: round half away from zero.  Compared with the
code's `jsMathRound` in the raw-amount claims. -/
def roundHalfAwayFromZero (q : ℚ) : ℤ :=
  if 0 ≤ q then ⌊q + 1 / 2⌋ else -⌊-q + 1 / 2⌋

/-- From `src/index.ts` (`get_quote`, `sell_token`):
`rawAmount = Math.round(amount * 10 ** decimals)`. -/
def rawAmountOf (amount : ℚ) (decimals : Nat) : ℤ :=
  jsMathRound (amount * 10 ^ decimals)

/-- Rounds a rational to the nearest integer, ties to even — the tie
rule of IEEE 754 round-to-nearest. -/
def roundNearestEven (q : ℚ) : ℤ :=
  let f := ⌊q⌋
  if q - f < 1 / 2 then f
  else if 1 / 2 < q - f then f + 1
  else if f % 2 = 0 then f else f + 1

/-- Rounds a positive rational to the nearest IEEE 754 binary64 value:
the significand is the nearest-even integer multiple of
2^(⌊log2 q⌋ − 52), giving 53 significant bits. -/
def flPos (q : ℚ) : ℚ :=
  (roundNearestEven (q / 2 ^ (Int.log 2 q - 52)) : ℚ) * 2 ^ (Int.log 2 q - 52)

/-- Rounds a rational to the nearest IEEE 754 binary64 value
(round-to-nearest, ties-to-even; the exponent is unbounded in the
model, which agrees with binary64 away from overflow and subnormals —
the regime of every value in this development). -/
def fl (q : ℚ) : ℚ :=
  if q = 0 then 0
  else if 0 < q then flPos q
  else -flPos (-q)

/-- From `src/index.ts` (`buy_and_sell`, step 2), in IEEE 754 double
precision: `Number(buyOutAmount)` parses the decimal string to the
nearest double (`fl`); `tokenAmount = Number(buyOutAmount) / 10 **
tokenDecimals` is a correctly rounded double division (10^d itself is
exact in binary64 for d ≤ 22); `Math.round(tokenAmount * 10 **
tokenDecimals)` rounds the double product and then takes the nearest
integer. -/
def normalizeRawAmount (buyOutAmount : ℤ) (tokenDecimals : Nat) : ℤ :=
  let bought : ℚ := fl (buyOutAmount : ℚ)
  let tokenAmount : ℚ := fl (bought / 10 ^ tokenDecimals)
  let rawTokenAmount : ℚ := fl (tokenAmount * 10 ^ tokenDecimals)
  jsMathRound rawTokenAmount

/-- From `src/index.ts`: the literal token `"SOL"` is substituted by the
native pseudo-mint wherever a mint address is expected. -/
def resolveMint (m : String) : String := if m = "SOL" then SOL_MINT else m

/-- One route step of `src/jupiter.ts`'s `JupiterQuote.routePlan`.
The source carries the amount fields as decimal strings; they are
embedded as the integers those strings denote. -/
structure SwapInfo where
  ammKey : String
  label : String
  inputMint : String
  outputMint : String
  inAmount : ℤ
  outAmount : ℤ
  feeAmount : ℤ
  feeMint : String
deriving Repr, DecidableEq

structure RoutePlanStep where
  swapInfo : SwapInfo
  percent : ℚ
deriving Repr, DecidableEq

/-- From `src/jupiter.ts`: the `JupiterQuote` payload.  String-typed amount
fields are embedded as the integers they denote; the optional
`contextSlot`/`timeTaken` diagnostics fields are not used anywhere in
the source and are omitted. -/
structure JupiterQuote where
  inputMint : String
  inAmount : ℤ
  outputMint : String
  outAmount : ℤ
  otherAmountThreshold : ℤ
  swapMode : String
  slippageBps : Nat
  priceImpactPct : String
  routePlan : List RoutePlanStep
deriving Repr, DecidableEq

/-- Outcome of one `fetch` of the quote endpoint: a parsed success
body, a non-ok HTTP response (status + body text), or a network-layer
exception (timeout/abort), which `fetch` raises with its own message. -/
inductive FetchResult (α : Type) where
  | success (v : α)
  | failure (status : Nat) (body : String)
  | netError (msg : String)
deriving Repr

/-- The external Jupiter service: response to the quote request as a
function of its parameters, and the overall outcome of the
build/sign/submit/confirm pipeline of `executeSwap` for a given quote
(those steps are all external effects; a failure of any of them is the
`Except.error` message thrown there). -/
structure JupiterApi where
  quoteResp : String → String → ℤ → Nat → FetchResult JupiterQuote
  swapResp : JupiterQuote → Except String String

/-- From `src/jupiter.ts`, `getQuote`: one network read; a non-ok response
throws `Jupiter quote failed (<status>): <body>`; a network error
propagates as thrown. -/
def getQuote (api : JupiterApi) (inputMint outputMint : String)
    (amount : ℤ) (slippageBps : Nat) : Except String JupiterQuote :=
  match api.quoteResp inputMint outputMint amount slippageBps with
  | .success q => .ok q
  | .failure status body =>
      .error ("Jupiter quote failed (" ++ toString status ++ "): " ++ body)
  | .netError msg => .error msg

/-- A resolved wallet keypair; only the public address is observable in
the envelopes. -/
structure Keypair where
  publicKey : String
deriving Repr, DecidableEq

/-- From `src/jupiter.ts`, `executeSwap`: builds, signs, submits and waits
for confirmation; the whole pipeline's outcome (txid after confirmation,
or the thrown error) is supplied by the environment. -/
def executeSwap (api : JupiterApi) (quote : JupiterQuote)
    (_keypair : Keypair) : Except String String :=
  api.swapResp quote

/-- From `src/solana.ts`, `getKeypair`: throws when `SOLANA_PRIVATE_KEY` is
unset, throws when base58 decoding / `Keypair.fromSecretKey` fails,
otherwise returns the keypair.  The decoder is environment-supplied. -/
def getKeypair (privateKey : Option String)
    (decodeKeypair : String → Option Keypair) : Except String Keypair :=
  match privateKey with
  | none =>
      .error "SOLANA_PRIVATE_KEY environment variable is not set. Required for signing transactions."
  | some pk =>
      match decodeKeypair pk with
      | some kp => .ok kp
      | none => .error "Invalid SOLANA_PRIVATE_KEY. Must be a base58-encoded private key."

/-- The `https://solscan.io/tx/` link rendered into the envelopes. -/
def explorerUrl (txid : String) : String := "https://solscan.io/tx/" ++ txid

/-- Result of one MCP tool handler: the structured success payload (the
source renders it with `JSON.stringify`), a caught error rendered as the
text `Error: <message>`, or an exception escaping the handler
uncaught. -/
inductive ToolOut (α : Type) where
  | ok (v : α)
  | errText (s : String)
  | thrown (s : String)
deriving Repr

/-- The environment-sourced wallet configuration of `src/solana.ts`:
the optional `SOLANA_PRIVATE_KEY` value and the external
base58-decode / `Keypair.fromSecretKey` step. -/
structure WalletEnv where
  privateKey : Option String
  decodeKeypair : String → Option Keypair

/-- The summary object rendered by `get_quote`. -/
structure QuoteSummary where
  inputMint : String
  outputMint : String
  inputAmount : ℤ
  outputAmount : ℤ
  priceImpact : String
  slippageBps : Nat
  route : String
deriving Repr, DecidableEq

/-- The `get_quote` route rendering: each step's venue label and percent
share, joined in upstream order with a directional separator. -/
def routeString (quote : JupiterQuote) : String :=
  String.intercalate " → "
    (quote.routePlan.map fun r => r.swapInfo.label ++ " (" ++ toString r.percent ++ "%)")

/-- From `src/index.ts`, the `get_quote` handler: resolves mint aliases, computes
the raw amount, quotes, and renders the summary; the whole body is in a
try/catch, so every error becomes `Error: <msg>` text. -/
def get_quote_tool (api : JupiterApi) (input_mint output_mint : String)
    (amount : ℚ) (input_decimals slippage_bps : Nat) : ToolOut QuoteSummary :=
  let resolvedInput := resolveMint input_mint
  let resolvedOutput := resolveMint output_mint
  let rawAmount := rawAmountOf amount input_decimals
  match getQuote api resolvedInput resolvedOutput rawAmount slippage_bps with
  | .error msg => .errText ("Error: " ++ msg)
  | .ok quote =>
      .ok ⟨quote.inputMint, quote.outputMint, quote.inAmount, quote.outAmount,
        quote.priceImpactPct ++ "%", quote.slippageBps, routeString quote⟩

/-- The success envelope of `buy_token`. -/
structure BuyResult where
  status : String
  transaction : String
  solSpent : ℚ
  tokenReceived : ℤ
  tokenMint : String
  explorer : String
deriving Repr, DecidableEq

/-- From `src/index.ts`, the `buy_token` handler; the whole body, keypair
resolution included, is inside the try/catch. -/
def buy_token_tool (api : JupiterApi) (wallet : WalletEnv)
    (token_address : String) (sol_amount : ℚ) (slippage_bps : Nat) :
    ToolOut BuyResult :=
  match getKeypair wallet.privateKey wallet.decodeKeypair with
  | .error msg => .errText ("Error: " ++ msg)
  | .ok keypair =>
    let rawAmount := jsMathRound (sol_amount * LAMPORTS_PER_SOL)
    match getQuote api SOL_MINT token_address rawAmount slippage_bps with
    | .error msg => .errText ("Error: " ++ msg)
    | .ok quote =>
      match executeSwap api quote keypair with
      | .error msg => .errText ("Error: " ++ msg)
      | .ok txid =>
          .ok ⟨"success", txid, sol_amount, quote.outAmount, token_address,
            explorerUrl txid⟩

/-- The success envelope of `sell_token`. -/
structure SellResult where
  status : String
  transaction : String
  tokenSold : ℚ
  tokenMint : String
  solReceived : ℚ
  explorer : String
deriving Repr, DecidableEq

/-- From `src/index.ts`, the `sell_token` handler; raw amount comes from the
caller-declared decimals; the whole body is inside the try/catch. -/
def sell_token_tool (api : JupiterApi) (wallet : WalletEnv)
    (token_address : String) (token_amount : ℚ) (token_decimals slippage_bps : Nat) :
    ToolOut SellResult :=
  match getKeypair wallet.privateKey wallet.decodeKeypair with
  | .error msg => .errText ("Error: " ++ msg)
  | .ok keypair =>
    let rawAmount := rawAmountOf token_amount token_decimals
    match getQuote api token_address SOL_MINT rawAmount slippage_bps with
    | .error msg => .errText ("Error: " ++ msg)
    | .ok quote =>
      match executeSwap api quote keypair with
      | .error msg => .errText ("Error: " ++ msg)
      | .ok txid =>
          .ok ⟨"success", txid, token_amount, token_address,
            (quote.outAmount : ℚ) / LAMPORTS_PER_SOL, explorerUrl txid⟩

/-- The `tokenAmount` record of a parsed token account
(`account.data.parsed.info.tokenAmount`): the raw amount as a decimal
string, the decimals, and the UI amount (which the RPC may null). -/
structure TokenAmountInfo where
  amount : String
  decimals : Nat
  uiAmount : Option ℚ
deriving Repr, DecidableEq

/-- One parsed token account returned by
`getParsedTokenAccountsByOwner`. -/
structure TokenAccount where
  tokenAmount : TokenAmountInfo
deriving Repr, DecidableEq

/-- From `src/solana.ts`, `getTokenBalance`: the RPC listing of the owner's
accounts for the mint is the input; an empty listing yields the zero
snapshot, otherwise the first account's `tokenAmount` is returned
verbatim. -/
def getTokenBalance (tokenAccounts : List TokenAccount) : TokenAmountInfo :=
  match tokenAccounts with
  | [] => ⟨"0", 0, some 0⟩
  | a :: _ => a.tokenAmount

/-- From `src/solana.ts`, `getSolBalance`: lamports over `LAMPORTS_PER_SOL`. -/
def getSolBalance (lamports : ℤ) : ℚ := (lamports : ℚ) / LAMPORTS_PER_SOL

/-- The decimals memoization cache of `src/solana.ts` (`decimalsCache`),
embedded as an association list; the source writes a key at most once,
so first-match lookup coincides with `Map` semantics. -/
def cacheGet (cache : List (String × Nat)) (mint : String) : Option Nat :=
  List.lookup mint cache

/-- Outcome of `connection.getParsedAccountInfo(mint)`: an RPC-level
exception, a response whose data is not in parsed form, or the parsed
mint decimals. -/
abbrev AccountInfoNet := String → Except String (Option Nat)

/-- From `src/solana.ts`, `getTokenDecimals`: returns the cached value when
present (no network call); otherwise one network read, caching and
returning the parsed decimals, or throwing
`Failed to fetch decimals for mint <mint>` when the data is not parsed.
Result: the thrown-or-returned value, the cache afterwards, and the
number of network reads issued (0 or 1). -/
def getTokenDecimals (net : AccountInfoNet) (cache : List (String × Nat))
    (mint : String) : Except String Nat × List (String × Nat) × Nat :=
  match cacheGet cache mint with
  | some d => (.ok d, cache, 0)
  | none =>
    match net mint with
    | .error msg => (.error msg, cache, 1)
    | .ok none => (.error ("Failed to fetch decimals for mint " ++ mint), cache, 1)
    | .ok (some d) => (.ok d, (mint, d) :: cache, 1)

/-- Runs a sequence of `getTokenDecimals` lookups, threading the cache. -/
def runDecimalsLookups (net : AccountInfoNet) (cache : List (String × Nat)) :
    List String → List (String × Nat) :=
  fun mints => mints.foldl (fun acc m => (getTokenDecimals net acc m).2.1) cache

/-- The Solana-side environment `buy_and_sell` runs against. -/
structure SolanaEnv where
  wallet : WalletEnv
  decimalsNet : AccountInfoNet
  decimalsCache : List (String × Nat)

/-- One external call made by `buy_and_sell`, in order: a Jupiter quote
request with its parameters, an `executeSwap` pipeline, or a
`getTokenDecimals` lookup. -/
inductive CallEv where
  | quote (inputMint outputMint : String) (amount : ℤ) (slippageBps : Nat)
  | swap
  | decimals (mint : String)
deriving Repr, DecidableEq

def CallEv.isQuoteCall : CallEv → Bool
  | .quote _ _ _ _ => true
  | _ => false

def CallEv.isSwapCall : CallEv → Bool
  | .swap => true
  | _ => false

def CallEv.isDecimalsCall : CallEv → Bool
  | .decimals _ => true
  | _ => false

/-- The buy-phase failure envelope of `buy_and_sell`. -/
structure BuyErrorEnvelope where
  status : String
  phase : String
  error : String
deriving Repr, DecidableEq

/-- The sell-phase failure ("partial") envelope of `buy_and_sell`.  It
carries the buy submission id, SOL spent, raw token received and the
sell-side error; it has no field for a sell submission id. -/
structure SellFailEnvelope where
  status : String
  buy_transaction : String
  sol_spent : ℚ
  token_received : ℤ
  token_mint : String
  sell_error : String
  explorer : String
deriving Repr, DecidableEq

/-- The full-success envelope of `buy_and_sell`. -/
structure BuySellSuccessEnvelope where
  status : String
  buy_transaction : String
  sell_transaction : String
  sol_spent : ℚ
  token_received : ℤ
  token_sold : ℚ
  sol_received : ℚ
  token_mint : String
  net_sol : ℚ
  profit_sol : ℚ
  explorer_buy : String
  explorer_sell : String
deriving Repr, DecidableEq

/-- How a `buy_and_sell` invocation ends: a rendered buy-phase error
envelope, a rendered sell-phase "partial" envelope, a rendered success
envelope, or an exception escaping the handler uncaught (the source
resolves the keypair before entering any try block). -/
inductive BuySellResult where
  | err (e : BuyErrorEnvelope)
  | sellFail (e : SellFailEnvelope)
  | done (e : BuySellSuccessEnvelope)
  | thrown (msg : String)
deriving Repr, DecidableEq

/-- Holds `true` when the handler produced a textual response (any rendered
envelope); `false` when an exception escaped the handler. -/
def isTextualResult : BuySellResult → Bool
  | .thrown _ => false
  | _ => true

/-- From `src/index.ts`, the `buy_and_sell` handler.  Returns the result together
with the ordered trace of external calls issued.  Faithful structure:
`getKeypair`/`getConnection` run before any try block; step 1 (buy
quote + swap) has its own catch rendering the `phase: "buy"` error
envelope; step 2 (decimals lookup, sell quote + swap) has its own catch
rendering the "partial" envelope.  The updated decimals cache is
module-level state; a single invocation reads it at most once, so it is
not threaded further here. -/
def buy_and_sell (api : JupiterApi) (sol : SolanaEnv) (token_address : String)
    (sol_amount : ℚ) (slippage_bps : Nat) : BuySellResult × List CallEv :=
  match getKeypair sol.wallet.privateKey sol.wallet.decodeKeypair with
  | .error msg => (.thrown msg, [])
  | .ok keypair =>
    let rawSolAmount := jsMathRound (sol_amount * LAMPORTS_PER_SOL)
    let buyQuoteCall := CallEv.quote SOL_MINT token_address rawSolAmount slippage_bps
    match getQuote api SOL_MINT token_address rawSolAmount slippage_bps with
    | .error msg => (.err ⟨"error", "buy", msg⟩, [buyQuoteCall])
    | .ok buyQuote =>
      match executeSwap api buyQuote keypair with
      | .error msg => (.err ⟨"error", "buy", msg⟩, [buyQuoteCall, .swap])
      | .ok buyTxid =>
        let buyOutAmount := buyQuote.outAmount
        match (getTokenDecimals sol.decimalsNet sol.decimalsCache token_address).1 with
        | .error msg =>
            (.sellFail ⟨"partial", buyTxid, sol_amount, buyOutAmount, token_address,
              msg, explorerUrl buyTxid⟩,
             [buyQuoteCall, .swap, .decimals token_address])
        | .ok tokenDecimals =>
          let rawTokenAmount := normalizeRawAmount buyOutAmount tokenDecimals
          let sellQuoteCall := CallEv.quote token_address SOL_MINT rawTokenAmount slippage_bps
          match getQuote api token_address SOL_MINT rawTokenAmount slippage_bps with
          | .error msg =>
              (.sellFail ⟨"partial", buyTxid, sol_amount, buyOutAmount, token_address,
                msg, explorerUrl buyTxid⟩,
               [buyQuoteCall, .swap, .decimals token_address, sellQuoteCall])
          | .ok sellQuote =>
            match executeSwap api sellQuote keypair with
            | .error msg =>
                (.sellFail ⟨"partial", buyTxid, sol_amount, buyOutAmount, token_address,
                  msg, explorerUrl buyTxid⟩,
                 [buyQuoteCall, .swap, .decimals token_address, sellQuoteCall, .swap])
            | .ok sellTxid =>
              let solReceived : ℚ := (sellQuote.outAmount : ℚ) / LAMPORTS_PER_SOL
              let tokenAmount : ℚ := (buyOutAmount : ℚ) / 10 ^ tokenDecimals
              let profitSol := solReceived - sol_amount
              (.done ⟨"success", buyTxid, sellTxid, sol_amount, buyOutAmount,
                tokenAmount, solReceived, token_address, profitSol, profitSol,
                explorerUrl buyTxid, explorerUrl sellTxid⟩,
               [buyQuoteCall, .swap, .decimals token_address, sellQuoteCall, .swap])

/-- The envelope assembled by `get_balance` when a token is queried. -/
structure TokenBalanceEntry where
  mint : String
  amount : String
  decimals : Nat
  uiAmount : Option ℚ
deriving Repr, DecidableEq

/-- The `get_balance` success envelope. -/
structure BalanceResult where
  wallet : String
  solBalance : ℚ
  tokenBalance : Option TokenBalanceEntry
deriving Repr, DecidableEq

/-- The environment `get_balance` runs against: the wallet secret, the
lamport balance the RPC reports, and the per-mint token-account
listing. -/
structure BalanceEnv where
  wallet : WalletEnv
  solBalanceLamports : ℤ
  tokenAccounts : String → List TokenAccount

/-- From `src/index.ts`, the `get_balance` handler; the whole body, keypair
resolution included, is inside the try/catch. -/
def get_balance_tool (env : BalanceEnv) (token_address : Option String) :
    ToolOut BalanceResult :=
  match getKeypair env.wallet.privateKey env.wallet.decodeKeypair with
  | .error msg => .errText ("Error: " ++ msg)
  | .ok keypair =>
    let solBalance := getSolBalance env.solBalanceLamports
    match token_address with
    | none => .ok ⟨keypair.publicKey, solBalance, none⟩
    | some mint =>
      let tb := getTokenBalance (env.tokenAccounts mint)
      .ok ⟨keypair.publicKey, solBalance, some ⟨mint, tb.amount, tb.decimals, tb.uiAmount⟩⟩

/-! ### Concrete environments used by the witness theorems -/

def kpDemo : Keypair := ⟨"WALLET"⟩

/-- A wallet environment whose secret is set and decodes. -/
def walletDemo : WalletEnv := ⟨some "sk", fun _ => some kpDemo⟩

/-- A wallet environment with `SOLANA_PRIVATE_KEY` unset. -/
def walletNoKey : WalletEnv := ⟨none, fun _ => some kpDemo⟩

/-- A Jupiter environment whose quote endpoint answers HTTP 500. -/
def apiQuoteFail500 : JupiterApi :=
  ⟨fun _ _ _ _ => .failure 500 "boom", fun _ => .error "swap unavailable"⟩

/-- A Jupiter environment whose quote endpoint answers HTTP 429. -/
def api429 : JupiterApi :=
  ⟨fun _ _ _ _ => .failure 429 "rate limited", fun _ => .error "swap unavailable"⟩

/-- A fixed upstream quote payload. -/
def quoteDemo : JupiterQuote :=
  ⟨SOL_MINT, 1000000000, "TOK", 123456, 0, "ExactIn", 50, "0", []⟩

/-- A Jupiter environment where every quote and every swap succeeds. -/
def apiAllOk : JupiterApi :=
  ⟨fun _ _ _ _ => .success quoteDemo, fun _ => .ok "TX"⟩

/-- Account metadata always parsing to 6 decimals. -/
def netSix : AccountInfoNet := fun _ => .ok (some 6)

/-- Account metadata lookup always raising an RPC error. -/
def netRpcDown : AccountInfoNet := fun _ => .error "rpc down"

def solOk : SolanaEnv := ⟨walletDemo, netSix, []⟩

def solNoKey : SolanaEnv := ⟨walletNoKey, netSix, []⟩

def solRpcDown : SolanaEnv := ⟨walletDemo, netRpcDown, []⟩

def balEnvDemo : BalanceEnv := ⟨walletDemo, 5000000000, fun _ => []⟩

/-! ### Claim theorems -/

/-- C4: for every schema-valid (amount, decimals) pair (amount positive,
decimals an integer in 0..18), the raw amount the operations compute and
submit — `Math.round(amount * 10 ** decimals)` — equals
round(amount × 10^decimals) under round-half-away-from-zero rounding. -/
theorem rawAmount_is_round_half_away (amount : ℚ) (hpos : 0 < amount)
    (decimals : Nat) (hd : decimals ≤ 18) :
    rawAmountOf amount decimals = roundHalfAwayFromZero (amount * 10 ^ decimals) := by
  have h : (0 : ℚ) ≤ amount * 10 ^ decimals := by positivity
  unfold rawAmountOf roundHalfAwayFromZero jsMathRound
  simp [h]

/-- C4 witness: amount 0.5 with decimals 9 is schema-valid, the code's
raw amount agrees with the half-away-from-zero rounding there, and it
equals 500000000. -/
theorem rawAmount_is_round_half_away_witness :
    0 < (1 / 2 : ℚ) ∧ (9 : Nat) ≤ 18 ∧
    rawAmountOf (1 / 2) 9 = roundHalfAwayFromZero ((1 / 2) * 10 ^ 9) ∧
    rawAmountOf (1 / 2) 9 = 500000000 := by
  refine ⟨by norm_num, by norm_num,
    rawAmount_is_round_half_away (1 / 2) (by norm_num) 9 (by norm_num), ?_⟩
  unfold rawAmountOf jsMathRound
  norm_num

/-- Characterization of Int.log base 2 by its zpow bracketing. -/
theorem ratLog2_eq (q : ℚ) (L : ℤ) (h0 : 0 < q) (h1 : 2 ^ L ≤ q)
    (h2 : q < 2 ^ (L + 1)) : Int.log 2 q = L := by
  have ha : L ≤ Int.log 2 q := by
    rw [← Int.zpow_le_iff_le_log (by norm_num) h0]
    simpa using h1
  have hb : Int.log 2 q < L + 1 := by
    rw [← Int.lt_zpow_iff_log_lt (by norm_num) h0]
    simpa using h2
  omega

/-- Nearest-even rounding returns the floor when the fraction is below
one half. -/
theorem roundNearestEven_eq_low (q : ℚ) (n : ℤ) (h1 : (n:ℚ) ≤ q)
    (h2 : q - n < 1 / 2) : roundNearestEven q = n := by
  have hf : ⌊q⌋ = n := Int.floor_eq_iff.mpr ⟨h1, by linarith⟩
  simp only [roundNearestEven]
  rw [hf, if_pos h2]

/-- Nearest-even rounding returns the ceiling when the fraction exceeds
one half. -/
theorem roundNearestEven_eq_high (q : ℚ) (n : ℤ) (h1 : (n:ℚ) ≤ q)
    (h2 : 1 / 2 < q - n) (h3 : q < n + 1) : roundNearestEven q = n + 1 := by
  have hf : ⌊q⌋ = n := Int.floor_eq_iff.mpr ⟨h1, h3⟩
  simp only [roundNearestEven]
  rw [hf, if_neg (by linarith), if_pos h2]

/-- Nearest-even rounding resolves an exact half-way tie to the even
neighbour. -/
theorem roundNearestEven_eq_tie_even (q : ℚ) (n : ℤ) (hq : q - n = 1 / 2)
    (he : n % 2 = 0) : roundNearestEven q = n := by
  have hf : ⌊q⌋ = n := Int.floor_eq_iff.mpr ⟨by linarith, by linarith⟩
  simp only [roundNearestEven]
  rw [hf, if_neg (by linarith), if_neg (by linarith), if_pos he]

/-- Nearest-even rounding is the identity on integers. -/
theorem roundNearestEven_intCast (n : ℤ) : roundNearestEven (n : ℚ) = n := by
  simp only [roundNearestEven, Int.floor_intCast]
  norm_num

/-- Nearest-even rounding moves a value by at most one half. -/
theorem abs_roundNearestEven_sub (q : ℚ) :
    |(roundNearestEven q : ℚ) - q| ≤ 1 / 2 := by
  have h0 : (⌊q⌋ : ℚ) ≤ q := Int.floor_le q
  have h1 : q < ⌊q⌋ + 1 := Int.lt_floor_add_one q
  simp only [roundNearestEven]
  split_ifs with ha hb hc
  · rw [abs_le]; constructor <;> linarith
  · rw [abs_le]; push_cast; constructor <;> linarith
  · rw [abs_le]; constructor <;> linarith
  · rw [abs_le]; push_cast; constructor <;> linarith

/-- On positive arguments fl is flPos. -/
theorem fl_of_pos (q : ℚ) (h : 0 < q) : fl q = flPos q := by
  rw [fl, if_neg h.ne', if_pos h]

/-- Evaluation rule for flPos from an explicit exponent bracket and an
explicit significand rounding. -/
theorem flPos_eq_of (q : ℚ) (L m : ℤ) (h0 : 0 < q) (h1 : 2 ^ L ≤ q)
    (h2 : q < 2 ^ (L + 1)) (h3 : roundNearestEven (q / 2 ^ (L - 52)) = m) :
    flPos q = (m : ℚ) * 2 ^ (L - 52) := by
  unfold flPos
  rw [ratLog2_eq q L h0 h1 h2, h3]

/-- Double rounding has relative error at most 2^−53 on positive
arguments. -/
theorem fl_sub_le (q : ℚ) (hq : 0 < q) : |fl q - q| ≤ q / 2 ^ 53 := by
  rw [fl_of_pos q hq]
  unfold flPos
  set e : ℤ := Int.log 2 q - 52 with he
  have h2e : (0:ℚ) < 2 ^ e := by positivity
  have hb := abs_roundNearestEven_sub (q / 2 ^ e)
  have key : |(roundNearestEven (q / 2 ^ e) : ℚ) * 2 ^ e - q| ≤ 1 / 2 * 2 ^ e := by
    have hrw : (roundNearestEven (q / 2 ^ e) : ℚ) * 2 ^ e - q
        = ((roundNearestEven (q / 2 ^ e) : ℚ) - q / 2 ^ e) * 2 ^ e := by
      field_simp
    rw [hrw, abs_mul, abs_of_pos h2e]
    exact mul_le_mul_of_nonneg_right hb h2e.le
  refine key.trans ?_
  have hlog : (2:ℚ) ^ (Int.log 2 q) ≤ q := by
    have h := Int.zpow_log_le_self (b := 2) (by norm_num) hq
    simpa using h
  have hsplit : (1:ℚ) / 2 * 2 ^ e = 2 ^ (Int.log 2 q) * 2 ^ (-53 : ℤ) := by
    rw [he, show (1:ℚ)/2 = 2 ^ (-1 : ℤ) from by norm_num,
      ← zpow_add₀ (by norm_num : (2:ℚ) ≠ 0), ← zpow_add₀ (by norm_num : (2:ℚ) ≠ 0)]
    congr 1
    ring
  rw [hsplit]
  calc (2:ℚ) ^ (Int.log 2 q) * 2 ^ (-53:ℤ)
      ≤ q * 2 ^ (-53:ℤ) := mul_le_mul_of_nonneg_right hlog (by positivity)
    _ = q / 2 ^ 53 := by
        rw [zpow_neg, div_eq_mul_inv]
        norm_num

/-- Double rounding is exact on integers up to 2^53. -/
theorem fl_intCast (r : ℤ) (h0 : 0 < r) (hr : r < 2 ^ 53) : fl (r : ℚ) = r := by
  have hq : (0:ℚ) < (r:ℚ) := by exact_mod_cast h0
  rw [fl_of_pos _ hq]
  unfold flPos
  have hlog : Int.log 2 (r:ℚ) < 53 := by
    rw [← Int.lt_zpow_iff_log_lt (by norm_num) hq]
    calc (r:ℚ) < ((2^53 : ℤ) : ℚ) := by exact_mod_cast hr
      _ = ((2:ℕ):ℚ) ^ (53:ℤ) := by norm_num
  obtain ⟨n, hn⟩ : ∃ n : ℕ, Int.log 2 (r:ℚ) - 52 = -(n:ℤ) :=
    ⟨(-(Int.log 2 (r:ℚ) - 52)).toNat, by omega⟩
  rw [hn]
  have hdiv : (r : ℚ) / 2 ^ (-(n:ℤ)) = ((r * 2 ^ n : ℤ) : ℚ) := by
    rw [zpow_neg, div_eq_mul_inv, inv_inv, zpow_natCast]
    push_cast
    ring
  rw [hdiv, roundNearestEven_intCast, zpow_neg, zpow_natCast]
  push_cast
  have h2 : ((2:ℚ)) ^ n ≠ 0 := by positivity
  field_simp

/-- C5 counterexample: at raw amount 2^53 + 1 = 9007199254740993 (a
non-negative integer, decimals 9 in 0..18) the double-precision
normalization of `buy_and_sell` is NOT the identity:
`Number("9007199254740993")` is 9007199254740992 (2^53 + 1 is not
representable in binary64), and the round-trip yields 9007199254740992,
so the raw amount sent to the sell-side quote differs from the raw
amount the buy quote reported. -/
theorem normalizeRawAmount_not_identity :
    (0:ℤ) ≤ 9007199254740993 ∧ (9:Nat) ≤ 18 ∧
    normalizeRawAmount 9007199254740993 9 = 9007199254740992 ∧
    normalizeRawAmount 9007199254740993 9 ≠ 9007199254740993 := by
  have h : normalizeRawAmount 9007199254740993 9 = 9007199254740992 := by
    show jsMathRound (fl (fl (fl ((9007199254740993:ℤ) : ℚ) / 10 ^ 9) * 10 ^ 9))
        = 9007199254740992
    have e1 : fl ((9007199254740993:ℤ) : ℚ) = 9007199254740992 := by
      push_cast
      rw [fl_of_pos _ (by norm_num)]
      rw [flPos_eq_of 9007199254740993 53 4503599627370496 (by norm_num)
        (by norm_num) (by norm_num)
        (roundNearestEven_eq_tie_even _ _ (by norm_num) (by decide))]
      norm_num
    rw [e1]
    have e2 : fl ((9007199254740992:ℚ) / 10 ^ 9) = 4835703278458517 / 536870912 := by
      rw [fl_of_pos _ (by norm_num)]
      rw [flPos_eq_of ((9007199254740992:ℚ) / 10 ^ 9) 23 4835703278458517
        (by norm_num) (by norm_num) (by norm_num) ?rne]
      · norm_num
      case rne =>
        rw [show ((23:ℤ) - 52) = (-29:ℤ) from by norm_num]
        have hh := roundNearestEven_eq_high ((9007199254740992:ℚ) / 10 ^ 9 / 2 ^ (-29:ℤ))
          4835703278458516 (by norm_num) (by norm_num) (by norm_num)
        rw [hh]
        norm_num
    rw [e2]
    have e3 : fl ((4835703278458517 / 536870912 : ℚ) * 10 ^ 9) = 9007199254740992 := by
      rw [fl_of_pos _ (by norm_num)]
      rw [flPos_eq_of ((4835703278458517 / 536870912 : ℚ) * 10 ^ 9) 53
        4503599627370496 (by norm_num) (by norm_num) (by norm_num) ?rne2]
      · norm_num
      case rne2 =>
        rw [show ((53:ℤ) - 52) = (1:ℤ) from by norm_num]
        exact roundNearestEven_eq_low _ 4503599627370496 (by norm_num) (by norm_num)
    rw [e3]
    norm_num [jsMathRound]
  exact ⟨by norm_num, by norm_num, h, by rw [h]; norm_num⟩

/-- C5 as amended: the buy-and-sell normalization — dividing the buy
quote's raw output by 10^decimals and re-raw-ifying by multiplying back
and rounding, carried out in the code's double-precision arithmetic
(`normalizeRawAmount`, the exact computation of the sell leg's raw
amount in `buy_and_sell`) — is the identity for every non-negative
integer raw amount up to 2^51 − 1 and every decimals value in 0..18;
above roughly 2^53 smallest units the round-trip can lose precision and
the raw amount sent to the sell-side quote can differ from the one the
buy quote reported (see the counterexample at 2^53 + 1). -/
theorem normalizeRawAmount_identity (r : ℤ) (h0 : 0 ≤ r) (hr : r ≤ 2 ^ 51 - 1)
    (d : Nat) (hd : d ≤ 18) : normalizeRawAmount r d = r := by
  rcases h0.eq_or_lt with h | hpos
  · rw [← h]
    show jsMathRound (fl (fl (fl ((0:ℤ) : ℚ) / 10 ^ d) * 10 ^ d)) = 0
    norm_num [fl, jsMathRound]
  · have hq : (0:ℚ) < (r:ℚ) := by exact_mod_cast hpos
    have hrQ : (r:ℚ) ≤ 2 ^ 51 - 1 := by exact_mod_cast hr
    have hr53 : r < 2 ^ 53 := by
      have h1 : (2:ℤ)^51 - 1 < 2^53 := by norm_num
      linarith
    show jsMathRound (fl (fl (fl ((r:ℤ):ℚ) / 10 ^ d) * 10 ^ d)) = r
    rw [fl_intCast r hpos hr53]
    set P : ℚ := 10 ^ d with hPdef
    have hPpos : (0:ℚ) < P := by rw [hPdef]; positivity
    set x := fl ((r:ℚ) / P) with hxdef
    have hxerr : |x - (r:ℚ) / P| ≤ ((r:ℚ) / P) / 2 ^ 53 := fl_sub_le _ (by positivity)
    have hxP : |x * P - (r:ℚ)| ≤ (r:ℚ) / 2 ^ 53 := by
      have heq : x * P - (r:ℚ) = (x - (r:ℚ) / P) * P := by field_simp
      rw [heq, abs_mul, abs_of_pos hPpos]
      calc |x - (r:ℚ)/P| * P ≤ (((r:ℚ)/P) / 2^53) * P :=
            mul_le_mul_of_nonneg_right hxerr hPpos.le
        _ = (r:ℚ) / 2^53 := by field_simp; ring
    have h1 := abs_le.mp hxP
    have hxPpos : 0 < x * P := by
      have h2 : (r:ℚ) / 2^53 < (r:ℚ) := div_lt_self hq (by norm_num)
      linarith [h1.1]
    have hperr : |fl (x * P) - x * P| ≤ (x * P) / 2 ^ 53 := fl_sub_le _ hxPpos
    have h2 := abs_le.mp hperr
    have hc : ((2:ℚ) ^ 53 : ℚ) = 9007199254740992 := by norm_num
    rw [hc] at h1 h2
    have htot : |fl (x * P) - (r:ℚ)| < 1/2 := by
      rw [abs_lt]
      constructor <;> linarith [h1.1, h1.2, h2.1, h2.2, hrQ, hq]
    have h3 := abs_lt.mp htot
    have hfloor : ⌊fl (x * P) + 1/2⌋ = r := by
      rw [Int.floor_eq_iff]
      constructor
      · linarith [h3.1]
      · linarith [h3.2]
    exact hfloor

/-- C5 witness: the normalization is the identity at raw amount
2^51 − 1 = 2251799813685247 with 9 decimals, the largest value the
amended bound admits. -/
theorem normalizeRawAmount_identity_witness :
    (0 : ℤ) ≤ 2251799813685247 ∧ (2251799813685247 : ℤ) ≤ 2 ^ 51 - 1 ∧
    (9 : Nat) ≤ 18 ∧
    normalizeRawAmount 2251799813685247 9 = 2251799813685247 :=
  ⟨by norm_num, by norm_num, by norm_num,
    normalizeRawAmount_identity 2251799813685247 (by norm_num) (by norm_num) 9
      (by norm_num)⟩

/-- C7: when the RPC listing holds no account for the requested asset,
`getTokenBalance` returns the zero snapshot (amount "0", decimals 0,
uiAmount 0) rather than an error, and that result is indistinguishable
from the one for a wallet holding an account with a zero balance. -/
theorem getTokenBalance_no_account_zero :
    getTokenBalance [] = ⟨"0", 0, some 0⟩ ∧
    getTokenBalance [] = getTokenBalance [⟨⟨"0", 0, some 0⟩⟩] :=
  ⟨rfl, rfl⟩

/-- C10: with more than one token account for the asset, the balance
query reports exactly the first account's `tokenAmount` — whatever the
remaining accounts hold, nothing is summed. -/
theorem getTokenBalance_first_account_only (a : TokenAccount)
    (rest : List TokenAccount) :
    getTokenBalance (a :: rest) = a.tokenAmount := rfl

/-- C9: when the aggregation service answers the (resolved) quote
request with a non-success status S and body B, `get_quote` yields the
text `Error: Jupiter quote failed (S): B`, surfacing status and body
verbatim. -/
theorem get_quote_upstream_error_surfaced (api : JupiterApi)
    (input_mint output_mint : String) (amount : ℚ)
    (input_decimals slippage_bps S : Nat) (B : String)
    (h : api.quoteResp (resolveMint input_mint) (resolveMint output_mint)
          (rawAmountOf amount input_decimals) slippage_bps = .failure S B) :
    get_quote_tool api input_mint output_mint amount input_decimals slippage_bps =
      .errText ("Error: " ++ ("Jupiter quote failed (" ++ toString S ++ "): " ++ B)) := by
  simp only [get_quote_tool, getQuote, h]

/-- C9 witness: with a quote endpoint answering HTTP 429 and body
"rate limited", the operation's result is exactly the text
`Error: Jupiter quote failed (429): rate limited`. -/
theorem get_quote_upstream_error_witness :
    api429.quoteResp (resolveMint "SOL") (resolveMint "TOK")
        (rawAmountOf (1 / 2) 9) 50 = .failure 429 "rate limited" ∧
    get_quote_tool api429 "SOL" "TOK" (1 / 2) 9 50 =
      .errText "Error: Jupiter quote failed (429): rate limited" :=
  ⟨rfl, get_quote_upstream_error_surfaced api429 "SOL" "TOK" (1 / 2) 9 50 429
    "rate limited" rfl⟩

/-- C1: when the buy leg of `buy_and_sell` fails — the first quote or
the first swap — the result is the `status: "error"`, `phase: "buy"`
envelope carrying the underlying message, and the call trace holds at
most one quote, at most one swap, and no decimals lookup: no sell-side
call is made. -/
theorem buy_and_sell_buy_failure
    (api : JupiterApi) (sol : SolanaEnv) (token_address : String)
    (sol_amount : ℚ) (slippage_bps : Nat) (kp : Keypair) (m : String)
    (hkp : getKeypair sol.wallet.privateKey sol.wallet.decodeKeypair = .ok kp)
    (hfail :
      getQuote api SOL_MINT token_address
          (jsMathRound (sol_amount * LAMPORTS_PER_SOL)) slippage_bps = .error m ∨
      ∃ q, getQuote api SOL_MINT token_address
            (jsMathRound (sol_amount * LAMPORTS_PER_SOL)) slippage_bps = .ok q ∧
          executeSwap api q kp = .error m) :
    (buy_and_sell api sol token_address sol_amount slippage_bps).1 =
      .err ⟨"error", "buy", m⟩ ∧
    (buy_and_sell api sol token_address sol_amount slippage_bps).2.countP
        (fun c => c.isQuoteCall) ≤ 1 ∧
    (buy_and_sell api sol token_address sol_amount slippage_bps).2.countP
        (fun c => c.isSwapCall) ≤ 1 ∧
    (buy_and_sell api sol token_address sol_amount slippage_bps).2.countP
        (fun c => c.isDecimalsCall) = 0 := by
  rcases hfail with h | ⟨q, hq, hs⟩
  · simp [buy_and_sell, hkp, h, List.countP_cons, List.countP_nil,
      CallEv.isQuoteCall, CallEv.isSwapCall, CallEv.isDecimalsCall]
  · simp [buy_and_sell, hkp, hq, hs, List.countP_cons, List.countP_nil,
      CallEv.isQuoteCall, CallEv.isSwapCall, CallEv.isDecimalsCall]

/-- C1 witness: with the wallet resolving and the quote endpoint
answering HTTP 500, `buy_and_sell` returns the buy-phase error envelope
and issues no sell-side call. -/
theorem buy_and_sell_buy_failure_witness :
    (buy_and_sell apiQuoteFail500 solOk "TOK" 1 50).1 =
      .err ⟨"error", "buy", "Jupiter quote failed (500): boom"⟩ ∧
    (buy_and_sell apiQuoteFail500 solOk "TOK" 1 50).2.countP
        (fun c => c.isQuoteCall) ≤ 1 ∧
    (buy_and_sell apiQuoteFail500 solOk "TOK" 1 50).2.countP
        (fun c => c.isSwapCall) ≤ 1 ∧
    (buy_and_sell apiQuoteFail500 solOk "TOK" 1 50).2.countP
        (fun c => c.isDecimalsCall) = 0 :=
  buy_and_sell_buy_failure apiQuoteFail500 solOk "TOK" 1 50 kpDemo
    "Jupiter quote failed (500): boom" rfl (Or.inl rfl)

/-- C2: when the buy leg of `buy_and_sell` succeeds (quote `q`, txid
`buyTxid`) and the sell leg fails at the decimals lookup, the sell
quote, or the sell swap, the result is the `status: "partial"` envelope
carrying the buy submission id, the SOL spent, the raw token amount the
buy quote reported, and the sell-side error; the envelope type carries
no sell submission id and the result is not the success envelope. -/
theorem buy_and_sell_partial_on_sell_failure
    (api : JupiterApi) (sol : SolanaEnv) (token_address : String)
    (sol_amount : ℚ) (slippage_bps : Nat) (kp : Keypair)
    (q : JupiterQuote) (buyTxid m : String)
    (hkp : getKeypair sol.wallet.privateKey sol.wallet.decodeKeypair = .ok kp)
    (hq : getQuote api SOL_MINT token_address
        (jsMathRound (sol_amount * LAMPORTS_PER_SOL)) slippage_bps = .ok q)
    (hswap : executeSwap api q kp = .ok buyTxid)
    (hsell :
      (getTokenDecimals sol.decimalsNet sol.decimalsCache token_address).1 =
        .error m ∨
      ∃ d, (getTokenDecimals sol.decimalsNet sol.decimalsCache token_address).1 =
            .ok d ∧
        (getQuote api token_address SOL_MINT
            (normalizeRawAmount q.outAmount d) slippage_bps = .error m ∨
         ∃ sq, getQuote api token_address SOL_MINT
              (normalizeRawAmount q.outAmount d) slippage_bps = .ok sq ∧
            executeSwap api sq kp = .error m)) :
    (buy_and_sell api sol token_address sol_amount slippage_bps).1 =
      .sellFail ⟨"partial", buyTxid, sol_amount, q.outAmount, token_address,
        m, explorerUrl buyTxid⟩ ∧
    ∀ e, (buy_and_sell api sol token_address sol_amount slippage_bps).1 ≠
      .done e := by
  rcases hsell with hd | ⟨d, hd, hq2 | ⟨sq, hq2, hs2⟩⟩
  · simp [buy_and_sell, hkp, hq, hswap, hd]
  · simp [buy_and_sell, hkp, hq, hswap, hd, hq2]
  · simp [buy_and_sell, hkp, hq, hswap, hd, hq2, hs2]

/-- C2 witness: buy succeeds (txid "TX", 123456 raw tokens) and the
decimals lookup raises an RPC error, so the result is the partial
envelope with the buy data and the sell-side error. -/
theorem buy_and_sell_partial_witness :
    (buy_and_sell apiAllOk solRpcDown "TOK" 1 50).1 =
      .sellFail ⟨"partial", "TX", 1, quoteDemo.outAmount, "TOK",
        "rpc down", explorerUrl "TX"⟩ ∧
    ∀ e, (buy_and_sell apiAllOk solRpcDown "TOK" 1 50).1 ≠ .done e :=
  buy_and_sell_partial_on_sell_failure apiAllOk solRpcDown "TOK" 1 50 kpDemo
    quoteDemo "TX" "rpc down" rfl rfl rfl (Or.inl rfl)

/-- C6: when both legs of `buy_and_sell` succeed, the success envelope's
`net_sol` equals `sol_received − sol_spent` exactly (the embedding is
exact rational arithmetic, so any tolerance ≤ 1e-9 is met), and
`profit_sol` carries the identical value. -/
theorem buy_and_sell_success_net
    (api : JupiterApi) (sol : SolanaEnv) (token_address : String)
    (sol_amount : ℚ) (slippage_bps : Nat) (kp : Keypair)
    (q sq : JupiterQuote) (buyTxid sellTxid : String) (d : Nat)
    (hkp : getKeypair sol.wallet.privateKey sol.wallet.decodeKeypair = .ok kp)
    (hq : getQuote api SOL_MINT token_address
        (jsMathRound (sol_amount * LAMPORTS_PER_SOL)) slippage_bps = .ok q)
    (hswap : executeSwap api q kp = .ok buyTxid)
    (hd : (getTokenDecimals sol.decimalsNet sol.decimalsCache token_address).1 =
      .ok d)
    (hq2 : getQuote api token_address SOL_MINT
        (normalizeRawAmount q.outAmount d) slippage_bps = .ok sq)
    (hs2 : executeSwap api sq kp = .ok sellTxid) :
    ∃ e, (buy_and_sell api sol token_address sol_amount slippage_bps).1 =
        .done e ∧
      e.net_sol = e.sol_received - e.sol_spent ∧
      e.profit_sol = e.net_sol ∧
      e.sol_received = (sq.outAmount : ℚ) / LAMPORTS_PER_SOL ∧
      e.sol_spent = sol_amount := by
  refine ⟨⟨"success", buyTxid, sellTxid, sol_amount, q.outAmount,
    (q.outAmount : ℚ) / 10 ^ d, (sq.outAmount : ℚ) / LAMPORTS_PER_SOL,
    token_address, (sq.outAmount : ℚ) / LAMPORTS_PER_SOL - sol_amount,
    (sq.outAmount : ℚ) / LAMPORTS_PER_SOL - sol_amount,
    explorerUrl buyTxid, explorerUrl sellTxid⟩, ?_, rfl, rfl, rfl, rfl⟩
  simp [buy_and_sell, hkp, hq, hswap, hd, hq2, hs2]

/-- C6 witness: with every leg succeeding (decimals 6, sell output
123456 raw lamports), the success envelope satisfies the net/profit
equalities. -/
theorem buy_and_sell_success_net_witness :
    ∃ e, (buy_and_sell apiAllOk solOk "TOK" 1 50).1 = .done e ∧
      e.net_sol = e.sol_received - e.sol_spent ∧
      e.profit_sol = e.net_sol ∧
      e.sol_received = (quoteDemo.outAmount : ℚ) / LAMPORTS_PER_SOL ∧
      e.sol_spent = 1 :=
  buy_and_sell_success_net apiAllOk solOk "TOK" 1 50 kpDemo quoteDemo quoteDemo
    "TX" "TX" 6 rfl rfl rfl rfl rfl rfl

/-- C3 counterexample: invoking `buy_and_sell` with
`SOLANA_PRIVATE_KEY` unset does NOT return a textual failure — the
`getKeypair` exception is raised before the handler's first try block
and propagates out of the handler, contradicting the claim. -/
theorem buy_and_sell_unset_secret_throws :
    (buy_and_sell apiAllOk solNoKey "TOK" 1 50).1 =
      .thrown "SOLANA_PRIVATE_KEY environment variable is not set. Required for signing transactions." ∧
    isTextualResult (buy_and_sell apiAllOk solNoKey "TOK" 1 50).1 = false :=
  ⟨rfl, rfl⟩

/-- C3 as amended: `get_quote`, `buy_token`, `sell_token` and
`get_balance` catch every exception of their own body (the result is
never an escaped exception, whatever the environment does); in
`buy_and_sell`, every buy-phase and sell-phase exception is caught and
rendered, but an exception from keypair resolution — in particular the
unset secret — is raised before any try block and propagates out of the
handler. -/
theorem tool_errors_textual_except_buy_and_sell_keypair :
    (∀ api i o a d s msg, get_quote_tool api i o a d s ≠ .thrown msg) ∧
    (∀ api w t a s msg, buy_token_tool api w t a s ≠ .thrown msg) ∧
    (∀ api w t a d s msg, sell_token_tool api w t a d s ≠ .thrown msg) ∧
    (∀ env t msg, get_balance_tool env t ≠ .thrown msg) ∧
    (∀ api sol t a s kp,
        getKeypair sol.wallet.privateKey sol.wallet.decodeKeypair = .ok kp →
        ∀ msg, (buy_and_sell api sol t a s).1 ≠ .thrown msg) ∧
    (∀ api sol t a s, sol.wallet.privateKey = none →
        (buy_and_sell api sol t a s).1 =
          .thrown "SOLANA_PRIVATE_KEY environment variable is not set. Required for signing transactions.") := by
  refine ⟨?_, ?_, ?_, ?_, ?_, ?_⟩
  · intro api i o a d s msg
    rcases h : getQuote api (resolveMint i) (resolveMint o) (rawAmountOf a d) s with m | q <;>
      simp [get_quote_tool, h]
  · intro api w t a s msg
    rcases hk : getKeypair w.privateKey w.decodeKeypair with m | kp
    · simp [buy_token_tool, hk]
    · rcases hq : getQuote api SOL_MINT t (jsMathRound (a * LAMPORTS_PER_SOL)) s with m | q
      · simp [buy_token_tool, hk, hq]
      · rcases hs : executeSwap api q kp with m | txid <;>
          simp [buy_token_tool, hk, hq, hs]
  · intro api w t a d s msg
    rcases hk : getKeypair w.privateKey w.decodeKeypair with m | kp
    · simp [sell_token_tool, hk]
    · rcases hq : getQuote api t SOL_MINT (rawAmountOf a d) s with m | q
      · simp [sell_token_tool, hk, hq]
      · rcases hs : executeSwap api q kp with m | txid <;>
          simp [sell_token_tool, hk, hq, hs]
  · intro env t msg
    rcases hk : getKeypair env.wallet.privateKey env.wallet.decodeKeypair with m | kp
    · simp [get_balance_tool, hk]
    · cases t <;> simp [get_balance_tool, hk]
  · intro api sol t a s kp hkp msg
    rcases hq : getQuote api SOL_MINT t (jsMathRound (a * LAMPORTS_PER_SOL)) s with m | q
    · simp [buy_and_sell, hkp, hq]
    · rcases hs : executeSwap api q kp with m | txid
      · simp [buy_and_sell, hkp, hq, hs]
      · rcases hd : (getTokenDecimals sol.decimalsNet sol.decimalsCache t).1 with m | d
        · simp [buy_and_sell, hkp, hq, hs, hd]
        · rcases hq2 : getQuote api t SOL_MINT (normalizeRawAmount q.outAmount d) s with m | sq
          · simp [buy_and_sell, hkp, hq, hs, hd, hq2]
          · rcases hs2 : executeSwap api sq kp with m | tx2 <;>
              simp [buy_and_sell, hkp, hq, hs, hd, hq2, hs2]
  · intro api sol t a s h
    simp [buy_and_sell, getKeypair, h]

/-- C3 witness: concrete instantiations of the amended claim — each
operation yields a non-thrown result in a concrete environment, the
keypair-resolving `buy_and_sell` run is not thrown, and the
unset-secret `buy_and_sell` run is thrown. -/
theorem tool_errors_textual_witness :
    get_quote_tool api429 "SOL" "TOK" (1 / 2) 9 50 ≠ .thrown "x" ∧
    buy_token_tool apiAllOk walletDemo "TOK" 1 50 ≠ .thrown "x" ∧
    sell_token_tool apiAllOk walletDemo "TOK" 1 6 50 ≠ .thrown "x" ∧
    get_balance_tool balEnvDemo none ≠ .thrown "x" ∧
    (buy_and_sell apiAllOk solOk "TOK" 1 50).1 ≠ .thrown "x" ∧
    (buy_and_sell apiAllOk solNoKey "TOK" 1 50).1 =
      .thrown "SOLANA_PRIVATE_KEY environment variable is not set. Required for signing transactions." :=
  ⟨tool_errors_textual_except_buy_and_sell_keypair.1 api429 "SOL" "TOK" (1 / 2) 9 50 "x",
   tool_errors_textual_except_buy_and_sell_keypair.2.1 apiAllOk walletDemo "TOK" 1 50 "x",
   tool_errors_textual_except_buy_and_sell_keypair.2.2.1 apiAllOk walletDemo "TOK" 1 6 50 "x",
   tool_errors_textual_except_buy_and_sell_keypair.2.2.2.1 balEnvDemo none "x",
   tool_errors_textual_except_buy_and_sell_keypair.2.2.2.2.1 apiAllOk solOk "TOK" 1 50
     kpDemo rfl "x",
   tool_errors_textual_except_buy_and_sell_keypair.2.2.2.2.2 apiAllOk solNoKey "TOK" 1 50 rfl⟩

/-- Looking up `k` after one `getTokenDecimals` call for any mint still
yields the value `k` was already cached with: the call writes only an
absent key. -/
theorem cacheGet_after_lookup (net : AccountInfoNet)
    (cache : List (String × Nat)) (mint k : String) (v : Nat)
    (h : cacheGet cache k = some v) :
    cacheGet (getTokenDecimals net cache mint).2.1 k = some v := by
  by_cases hk : k = mint
  · subst hk
    simp [getTokenDecimals, h]
  · cases h1 : cacheGet cache mint with
    | some d => simp [getTokenDecimals, h1, h]
    | none =>
      cases h2 : net mint with
      | error m => simp [getTokenDecimals, h1, h2, h]
      | ok od =>
        cases od with
        | none => simp [getTokenDecimals, h1, h2, h]
        | some d =>
          simp only [getTokenDecimals, h1, h2]
          simpa [cacheGet, List.lookup, beq_eq_false_iff_ne.mpr hk] using h

/-- C8: the decimals lookup is memoized write-once per key.  (a) On a
miss with parse success, the first lookup issues exactly one network
read and writes the entry, and the immediately repeated lookup answers
from the cache with zero network reads.  (b) A lookup's outcome and its
network-read count depend only on the cache entry for its own key, so
lookups for different asset ids are independent.  (c) A lookup never
touches the entry of another key.  (d) A written entry survives any
sequence of further lookups with its value unchanged. -/
theorem getTokenDecimals_memoized (net : AccountInfoNet) :
    (∀ cache mint d, cacheGet cache mint = none → net mint = .ok (some d) →
        getTokenDecimals net cache mint = (.ok d, (mint, d) :: cache, 1) ∧
        getTokenDecimals net ((mint, d) :: cache) mint =
          (.ok d, (mint, d) :: cache, 0)) ∧
    (∀ c₁ c₂ mint, cacheGet c₁ mint = cacheGet c₂ mint →
        (getTokenDecimals net c₁ mint).1 = (getTokenDecimals net c₂ mint).1 ∧
        (getTokenDecimals net c₁ mint).2.2 = (getTokenDecimals net c₂ mint).2.2) ∧
    (∀ cache mint k, k ≠ mint →
        cacheGet (getTokenDecimals net cache mint).2.1 k = cacheGet cache k) ∧
    (∀ k v mints cache, cacheGet cache k = some v →
        cacheGet (runDecimalsLookups net cache mints) k = some v) := by
  refine ⟨?_, ?_, ?_, ?_⟩
  · intro cache mint d h hnet
    constructor
    · simp [getTokenDecimals, h, hnet]
    · simp [getTokenDecimals, cacheGet, List.lookup]
  · intro c₁ c₂ mint hsame
    cases h1 : cacheGet c₁ mint with
    | some d =>
      have h2 : cacheGet c₂ mint = some d := hsame.symm.trans h1
      simp [getTokenDecimals, h1, h2]
    | none =>
      have h2 : cacheGet c₂ mint = none := hsame.symm.trans h1
      cases h3 : net mint with
      | error m => simp [getTokenDecimals, h1, h2, h3]
      | ok od => cases od <;> simp [getTokenDecimals, h1, h2, h3]
  · intro cache mint k hk
    cases h1 : cacheGet cache mint with
    | some d => simp [getTokenDecimals, h1]
    | none =>
      cases h2 : net mint with
      | error m => simp [getTokenDecimals, h1, h2]
      | ok od =>
        cases od with
        | none => simp [getTokenDecimals, h1, h2]
        | some d =>
          have h1a : List.lookup mint cache = none := h1
          simp [getTokenDecimals, cacheGet, h1a, h2, List.lookup,
            beq_eq_false_iff_ne.mpr hk]
  · intro k v mints
    induction mints with
    | nil => intro cache h; simpa [runDecimalsLookups] using h
    | cons m ms ih =>
      intro cache h
      have step := cacheGet_after_lookup net cache m k v h
      simpa [runDecimalsLookups] using ih _ step

/-- C8 witness: with metadata parsing to 6 decimals, the first lookup
of "M" on an empty cache issues one network read and caches (M, 6), the
second lookup answers from the cache with zero reads, and an existing
entry (K, 2) survives lookups for "M" and "N" unchanged. -/
theorem getTokenDecimals_memoized_witness :
    (getTokenDecimals netSix [] "M" = (.ok 6, [("M", 6)], 1) ∧
     getTokenDecimals netSix [("M", 6)] "M" = (.ok 6, [("M", 6)], 0)) ∧
    cacheGet (runDecimalsLookups netSix [("K", 2)] ["M", "N"]) "K" = some 2 :=
  ⟨(getTokenDecimals_memoized netSix).1 [] "M" 6 rfl rfl,
   (getTokenDecimals_memoized netSix).2.2.2 "K" 2 ["M", "N"] [("K", 2)] rfl⟩
